import Mathlib

/-!
Verification of the asset health-scoring and status/alerting core of the
wind-farm monitoring dashboard.

Numbers that are JavaScript floats in the source (power, temperature,
coordinates, …) are modelled as exact rationals (`ℚ`); scores and
deductions are integers (`ℤ`).  External-store calls are modelled by
explicit result parameters (`Bool` / `Option`) passed into each
operation, and the write traffic an operation issues is returned as an
explicit list of row values, so that "side effect" and "on failure"
claims become statements about ordinary functions.
-/

namespace WindFarm

/-- Turbine operating status, `'normal' | 'warning' | 'error'` in
`src/types/index.ts`. -/
inductive TStatus
  | normal
  | warning
  | error
deriving DecidableEq, Repr

/-- The JavaScript string a status renders to in a template literal. -/
def statusText : TStatus → String
  | .normal => "normal"
  | .warning => "warning"
  | .error => "error"

/-- Health status, `'good' | 'warning' | 'critical'` in
`src/components/side-panel/types` (src/unnamed/part_004). -/
inductive HStatus
  | good
  | warning
  | critical
deriving DecidableEq, Repr

/-- A turbine event, interface `Event` of `src/types/index.ts` /
`src/unnamed/part_006` (`priority?: number` is optional there). -/
structure Event where
  date : String
  event : String
  priority : Option ℤ
deriving DecidableEq, Repr

/-- In-memory wind turbine, interface `WindTurbine` of `src/unnamed/part_006`
(the cached `powerHistory` series is irrelevant to every claim and omitted).
`position` is the Leaflet `[lat, lon]` pair. -/
structure WindTurbine where
  id : String
  name : String
  position : ℚ × ℚ
  status : TStatus
  power : ℚ
  windSpeed : ℚ
  temperature : ℚ
  humidity : ℚ
  events : List Event
deriving DecidableEq, Repr

/-- `HealthScore` of `src/components/side-panel/types`
(src/unnamed/part_004). -/
structure HealthScore where
  score : ℤ
  status : HStatus
  issues : List String
deriving DecidableEq, Repr

/-- `HealthCalculationResult` of `src/components/side-panel/types`. -/
structure HealthCalculationResult where
  deduction : ℤ
  issue : Option String
deriving DecidableEq, Repr

/-- `checkPowerEfficiency` of `src/components/side-panel/utils.ts`. -/
def checkPowerEfficiency (power expectedPower : ℚ) : HealthCalculationResult :=
  let powerEfficiency := (power / expectedPower) * 100
  if powerEfficiency < 60 then
    { deduction := 20, issue := some "Low power generation efficiency" }
  else if powerEfficiency < 80 then
    { deduction := 10, issue := some "Reduced power generation" }
  else
    { deduction := 0, issue := none }

/-- `checkTemperature` of `src/components/side-panel/utils.ts`. -/
def checkTemperature (temperature : ℚ) : HealthCalculationResult :=
  if temperature > 35 then
    { deduction := 15, issue := some "High temperature detected" }
  else if temperature > 30 then
    { deduction := 5, issue := some "Temperature slightly elevated" }
  else
    { deduction := 0, issue := none }

/-- One row inserted into the external `health_history` table. -/
structure HealthHistoryRow where
  turbine_id : String
  health_score : ℤ
  status : HStatus
  issues : List String
  recorded_at : String
deriving DecidableEq, Repr

/-- `calculateHealthScore` of `src/components/side-panel/utils.ts`.
Returns the `HealthScore` the caller receives together with the list of
rows the function inserts into the external `health_history` store.
`now` stands for the current timestamp; `insertOk` is the external
store's answer to the insert — the source only logs a failed insert
(inside `try`/`catch`), so the answer influences nothing. -/
def calculateHealthScore (turbine : WindTurbine) (now : String) (insertOk : Bool) :
    HealthScore × List HealthHistoryRow :=
  let score0 : ℤ := 100
  let issues0 : List String := []
  -- Check operational status
  let score1 := if turbine.status = .error then score0 - 40 else
    if turbine.status = .warning then score0 - 20 else score0
  let issues1 := if turbine.status = .error then issues0 ++ ["Turbine in error state"] else
    if turbine.status = .warning then issues0 ++ ["Turbine needs maintenance"] else issues0
  -- Check power efficiency
  let powerCheck := checkPowerEfficiency turbine.power 8
  let score2 := score1 - powerCheck.deduction
  let issues2 := issues1 ++ powerCheck.issue.toList
  -- Check temperature
  let tempCheck := checkTemperature turbine.temperature
  let score3 := score2 - tempCheck.deduction
  let issues3 := issues2 ++ tempCheck.issue.toList
  let status : HStatus := if score3 ≥ 80 then .good else if score3 ≥ 60 then .warning else .critical
  -- the insert into health_history is attempted unconditionally; a failure
  -- (insertOk = false) is only logged
  let writes : List HealthHistoryRow :=
    [{ turbine_id := turbine.id, health_score := score3, status := status,
       issues := issues3, recorded_at := now }]
  ({ score := max 0 score3, status := status, issues := issues3 }, writes)

/-- The local synchronous `calculateHealthScore` defined inside the
`SidePanel` component, `src/components/SidePanel.tsx` lines 408–453. -/
def calculateHealthScoreLocal (turbine : WindTurbine) : HealthScore :=
  let score0 : ℤ := 100
  let issues0 : List String := []
  -- 檢查運行狀態
  let score1 := if turbine.status = .error then score0 - 40 else
    if turbine.status = .warning then score0 - 20 else score0
  let issues1 := if turbine.status = .error then issues0 ++ ["Turbine in error state"] else
    if turbine.status = .warning then issues0 ++ ["Turbine needs maintenance"] else issues0
  -- 檢查發電效率
  let expectedPower : ℚ := 8
  let powerEfficiency := (turbine.power / expectedPower) * 100
  let score2 := if powerEfficiency < 60 then score1 - 20 else
    if powerEfficiency < 80 then score1 - 10 else score1
  let issues2 := if powerEfficiency < 60 then issues1 ++ ["Low power generation efficiency"] else
    if powerEfficiency < 80 then issues1 ++ ["Reduced power generation"] else issues1
  -- 檢查溫度是否在正常範圍
  let score3 := if turbine.temperature > 35 then score2 - 15 else
    if turbine.temperature > 30 then score2 - 5 else score2
  let issues3 := if turbine.temperature > 35 then issues2 ++ ["High temperature detected"] else
    if turbine.temperature > 30 then issues2 ++ ["Temperature slightly elevated"] else issues2
  -- 根據分數決定狀態
  let status : HStatus := if score3 ≥ 80 then .good else if score3 ≥ 60 then .warning else .critical
  { score := max 0 score3, status := status, issues := issues3 }

/-- Alert type, `'health_score' | 'scheduled' | 'emergency'` in
`src/unnamed/part_005`. -/
inductive AlertType
  | health_score
  | scheduled
  | emergency
deriving DecidableEq, Repr

/-- Alert lifecycle status, `'pending' | 'in_progress' | 'completed'`. -/
inductive AlertStatus
  | pending
  | in_progress
  | completed
deriving DecidableEq, Repr

/-- An existing `maintenance_alerts` row, interface `MaintenanceAlert` of
`src/unnamed/part_005` (`health_score?` is optional there, hence `Option`). -/
structure MaintenanceAlert where
  id : ℤ
  turbine_id : String
  alert_type : AlertType
  status : AlertStatus
  description : String
  health_score : Option ℤ
  assigned_to : Option String
  created_at : String
deriving DecidableEq, Repr

/-- The row `createHealthAlert` inserts into `maintenance_alerts`
(the numeric `id` is assigned by the external store, so it is absent). -/
structure AlertInsert where
  turbine_id : String
  alert_type : AlertType
  status : AlertStatus
  description : String
  health_score : Option ℤ
  created_at : String
deriving DecidableEq, Repr

/-- `createHealthAlert` inside `MaintenanceAlerts`, `src/unnamed/part_005`
lines 59–87: `alerts` is the component's fetched list of alerts for the
turbine, `healthScore` the freshly computed score.  Returns the inserted
row, or `none` when the guard decides against creating an alert. -/
def createHealthAlert (alerts : List MaintenanceAlert) (turbineId : String)
    (healthScore : ℤ) (now : String) : Option AlertInsert :=
  if healthScore < 60 && !(alerts.any fun a =>
      a.alert_type == .health_score &&
      a.status != .completed &&
      a.health_score == some healthScore) then
    some { turbine_id := turbineId, alert_type := .health_score, status := .pending,
           description := "Low health score detected: " ++ toString healthScore,
           health_score := some healthScore, created_at := now }
  else
    none

/-- Connection type, `'turbine-turbine' | 'turbine-substation'`. -/
inductive ConnType
  | turbineTurbine
  | turbineSubstation
deriving DecidableEq, Repr

/-- In-memory connection, interface `Connection` of `src/types/index.ts`
(`from` is a Lean keyword, hence `from_`). -/
structure Connection where
  id : ℤ
  from_ : String
  to_ : String
  status : TStatus
  type : ConnType
deriving DecidableEq, Repr

/-- One row inserted into the external `turbine_events` table by
`updateTurbineStatus`; the source sets no `priority` column. -/
structure EventInsertRow where
  turbine_id : String
  event : String
  priority : Option ℤ
  created_at : String
deriving DecidableEq, Repr

/-- `updateTurbineStatus` of `src/components/wind-farm-map.tsx`
lines 366–415.  `statusUpdateOk` is the store's answer to the
`wind_turbines` update (checked, aborts on failure), `eventInsertOk`
the answer to the `turbine_events` insert (only logged).  Returns the
new in-memory turbine list and the event rows the call inserted. -/
def updateTurbineStatus (turbines : List WindTurbine) (id : String) (newStatus : TStatus)
    (now : String) (statusUpdateOk eventInsertOk : Bool) :
    List WindTurbine × List EventInsertRow :=
  if !statusUpdateOk then
    -- console.error; return — no event insert is attempted, no local change
    (turbines, [])
  else
    -- the event insert is issued; eventError is only logged, never aborts
    let insertedRows : List EventInsertRow :=
      [{ turbine_id := id, event := "狀態更改為" ++ statusText newStatus,
         priority := none, created_at := now }]
    let newTurbines := turbines.map fun t =>
      if t.id == id then
        { t with
          status := newStatus,
          events := { date := now, event := "狀態更改為" ++ statusText newStatus,
                      priority := none } :: t.events }
      else t
    (newTurbines, insertedRows)

/-- `updateTurbinePosition` of `src/components/wind-farm-map.tsx`
lines 345–363: on a failed `wind_turbines` update the function logs and
returns; otherwise the in-memory position is replaced. -/
def updateTurbinePosition (turbines : List WindTurbine) (id : String)
    (newPosition : ℚ × ℚ) (updateOk : Bool) : List WindTurbine :=
  if !updateOk then turbines
  else turbines.map fun t => if t.id == id then { t with position := newPosition } else t

/-- `updateConnectionStatus` of `src/components/wind-farm-map.tsx`
lines 461–487. -/
def updateConnectionStatus (connections : List Connection) (id : ℤ)
    (newStatus : TStatus) (updateOk : Bool) : List Connection :=
  if !updateOk then connections
  else connections.map fun c => if c.id == id then { c with status := newStatus } else c

/-- `addConnection` of `src/components/wind-farm-map.tsx` lines 418–458:
`insertResult` is the row the store returns from
`insert(...).select().single()` — `none` on error (the function then
logs and returns), `some newId` on success. -/
def addConnection (connections : List Connection) (fromId toId : String)
    (type : ConnType) (insertResult : Option ℤ) : List Connection :=
  match insertResult with
  | none => connections
  | some newId =>
      connections ++ [{ id := newId, from_ := fromId, to_ := toId,
                        status := .normal, type := type }]

/-- Turbine creation in `MapEvents` (`src/components/wind-farm-map.tsx`
lines 86–159): the `wind_turbines` insert and the seeded `power_history`
insert are both checked; either failure returns before `setTurbines`. -/
def addTurbine (turbines : List WindTurbine) (newTurbine : WindTurbine)
    (turbineInsertOk historyInsertOk : Bool) : List WindTurbine :=
  if !turbineInsertOk then turbines
  else if !historyInsertOk then turbines
  else turbines ++ [newTurbine]

/-- One delete issued against the external store: the table and the
value the delete is keyed on. -/
structure DeleteOp where
  table : String
  key : String
deriving DecidableEq, Repr

/-- The sequence of external deletes `deleteTurbine`
(`src/components/wind-farm-map.tsx` lines 530–571) issues: one
`connections` delete per related connection, then the `power_history`
delete, then the `wind_turbines` delete.  The results of the connection
and power-history deletes are never inspected, so the sequence does not
depend on them. -/
def deleteTurbineOps (connections : List Connection) (id : String) : List DeleteOp :=
  let relatedConnections := connections.filter fun conn =>
    conn.from_ == id || conn.to_ == id
  relatedConnections.map (fun conn => { table := "connections", key := toString conn.id })
    ++ [{ table := "power_history", key := id },
        { table := "wind_turbines", key := id }]

/-- The in-memory effect of `deleteTurbine`: only the error of the final
`wind_turbines` delete is checked; on its failure the function logs and
returns with local state untouched, otherwise turbines and connections
referencing the id are filtered out. -/
def deleteTurbine (turbines : List WindTurbine) (connections : List Connection)
    (id : String) (turbineDeleteOk : Bool) : List WindTurbine × List Connection :=
  if !turbineDeleteOk then (turbines, connections)
  else
    (turbines.filter fun t => t.id != id,
     connections.filter fun c => c.from_ != id && c.to_ != id)

/-- The dashboard aggregation effect, `src/components/wind-farm-map.tsx`
lines 259–264: `turbines.reduce((sum, turbine) => sum + turbine.power, 0)`. -/
def totalPower (turbines : List WindTurbine) : ℚ :=
  turbines.foldl (fun sum turbine => sum + turbine.power) 0

/-- JavaScript `turbines.length || 1`, the guarded divisor of the averages. -/
def lengthOr1 (turbines : List WindTurbine) : ℚ :=
  if turbines.length == 0 then 1 else (turbines.length : ℚ)

/-- `turbines.reduce((sum, turbine) => sum + turbine.windSpeed, 0) / (turbines.length || 1)`. -/
def averageWindSpeed (turbines : List WindTurbine) : ℚ :=
  turbines.foldl (fun sum turbine => sum + turbine.windSpeed) 0 / lengthOr1 turbines

/-- Average temperature, same shape as `averageWindSpeed`. -/
def averageTemperature (turbines : List WindTurbine) : ℚ :=
  turbines.foldl (fun sum turbine => sum + turbine.temperature) 0 / lengthOr1 turbines

/-- Average humidity, same shape as `averageWindSpeed`. -/
def averageHumidity (turbines : List WindTurbine) : ℚ :=
  turbines.foldl (fun sum turbine => sum + turbine.humidity) 0 / lengthOr1 turbines

/-- Accumulator of `getTurbineStatusCounts`. -/
structure StatusCounts where
  normal : ℕ
  warning : ℕ
  error : ℕ
deriving DecidableEq, Repr

/-- `getTurbineStatusCounts` of `src/components/wind-farm-map.tsx`
lines 635–643: `reduce` with `acc[turbine.status]++` from
`{ normal: 0, warning: 0, error: 0 }`. -/
def getTurbineStatusCounts (turbines : List WindTurbine) : StatusCounts :=
  turbines.foldl
    (fun acc turbine =>
      match turbine.status with
      | .normal => { acc with normal := acc.normal + 1 }
      | .warning => { acc with warning := acc.warning + 1 }
      | .error => { acc with error := acc.error + 1 })
    { normal := 0, warning := 0, error := 0 }

/-- `pointStr.split(',')` on the character level: split a character list
at every `','`. -/
def splitOnCommaAux : List Char → List Char → List (List Char)
  | [], acc => [acc.reverse]
  | c :: cs, acc =>
      if c = ',' then acc.reverse :: splitOnCommaAux cs []
      else splitOnCommaAux cs (c :: acc)

/-- Split a character list on commas (JavaScript `str.split(',')`). -/
def splitOnComma (cs : List Char) : List (List Char) :=
  splitOnCommaAux cs []

/-- `parsePointString` of `src/components/wind-farm-map.tsx` lines 72–75:
`pointStr.slice(1, -1).split(',').map(Number)` destructured as
`[lon, lat]`, returned as `[lat, lon]`.  `strToNum` models the
JavaScript `Number(...)` coercion. -/
def parsePointString (strToNum : String → ℚ) (pointStr : String) : ℚ × ℚ :=
  let inner : List Char := (pointStr.data.drop 1).dropLast
  let parts : List (List Char) := splitOnComma inner
  (strToNum ⟨parts.getD 1 []⟩, strToNum ⟨parts.getD 0 []⟩)

/-- The serialized `location` written by `updateTurbinePosition` and the
insert paths: `` `(${lon},${lat})` `` from the display pair
`[lat, lon]`.  `numToString` models the JavaScript number-to-string
coercion of the template literal. -/
def serializePoint (numToString : ℚ → String) (position : ℚ × ℚ) : String :=
  "(" ++ numToString position.2 ++ "," ++ numToString position.1 ++ ")"

/-! ### Sample data used by witnesses and counterexamples -/

/-- A turbine in error state with zero output and high temperature. -/
def sampleErrorTurbine : WindTurbine :=
  { id := "HL30-001", name := "風機 #0001", position := (23, 119), status := .error,
    power := 0, windSpeed := 5, temperature := 40, humidity := 60, events := [] }

/-- A healthy turbine (normal status, full output, mild temperature). -/
def sampleNormalTurbine : WindTurbine :=
  { id := "HL30-002", name := "風機 #0002", position := (24, 120), status := .normal,
    power := 8, windSpeed := 7, temperature := 25, humidity := 55, events := [] }

/-- A turbine agreeing with `sampleErrorTurbine` on status, power and
temperature but differing in every other attribute. -/
def sampleErrorTurbineVariant : WindTurbine :=
  { id := "HL30-009", name := "風機 #0009", position := (25, 121), status := .error,
    power := 0, windSpeed := 12, temperature := 40, humidity := 90,
    events := [{ date := "d", event := "安裝完成", priority := some 3 }] }

/-! ### C1 — the fixed-point deduction model of the health scorer -/

/-- C1: for every turbine input, `calculateHealthScore` returns exactly the
fixed-point deduction model: base 100; −40 ("Turbine in error state") on
error or −20 ("Turbine needs maintenance") on warning; −20 ("Low power
generation efficiency") when `power/8.0*100 < 60` else −10 ("Reduced power
generation") when `< 80`; −15 ("High temperature detected") when
`temperature > 35` else −5 ("Temperature slightly elevated") when `> 30`;
deductions additive; returned score `= max(0, 100 − sum)`, never negative;
status good iff score ≥ 80, warning iff 60 ≤ score < 80, critical iff
score < 60; issues listed in status→efficiency→temperature order. -/
theorem healthScorer_deduction_model (t : WindTurbine) (now : String) (ok : Bool) :
    ((calculateHealthScore t now ok).1.score =
      max 0 (100 - ((if t.status = .error then 40 else if t.status = .warning then 20 else 0)
        + (if t.power / 8 * 100 < 60 then 20 else if t.power / 8 * 100 < 80 then 10 else 0)
        + (if t.temperature > 35 then 15 else if t.temperature > 30 then 5 else 0))))
  ∧ 0 ≤ (calculateHealthScore t now ok).1.score
  ∧ ((calculateHealthScore t now ok).1.status = .good ↔
      80 ≤ (calculateHealthScore t now ok).1.score)
  ∧ ((calculateHealthScore t now ok).1.status = .warning ↔
      (60 ≤ (calculateHealthScore t now ok).1.score ∧
        (calculateHealthScore t now ok).1.score < 80))
  ∧ ((calculateHealthScore t now ok).1.status = .critical ↔
      (calculateHealthScore t now ok).1.score < 60)
  ∧ (calculateHealthScore t now ok).1.issues =
      ((if t.status = .error then ["Turbine in error state"]
        else if t.status = .warning then ["Turbine needs maintenance"] else [])
        ++ (if t.power / 8 * 100 < 60 then ["Low power generation efficiency"]
            else if t.power / 8 * 100 < 80 then ["Reduced power generation"] else [])
        ++ (if t.temperature > 35 then ["High temperature detected"]
            else if t.temperature > 30 then ["Temperature slightly elevated"] else [])) := by
  obtain ⟨tid, tname, tpos, tstatus, tpower, tws, ttemp, thum, tevents⟩ := t
  cases tstatus <;>
    simp [calculateHealthScore, checkPowerEfficiency, checkTemperature] <;>
    split_ifs <;>
    simp_all

/-! ### C7 — history-insert failure does not change the returned score -/

/-- C7: failure of the append of the computed score to the external
health-history store does not prevent the score from being returned:
`calculateHealthScore` returns the same `{score, status, issues}` whether
the insert succeeds (`true`) or fails (`false`). -/
theorem healthScorer_insert_failure_irrelevant (t : WindTurbine) (now : String) :
    (calculateHealthScore t now true).1 = (calculateHealthScore t now false).1 := rfl

/-! ### C8 — determinism of the scorer; but the function is not side-effect-free -/

/-- C8 as stated is false: `calculateHealthScore` in
`side-panel/utils.ts` is not side-effect-free — even for a healthy
turbine it issues one insert into the external `health_history` store. -/
theorem healthScorer_has_side_effect_counterexample :
    (calculateHealthScore sampleNormalTurbine "2024-01-01" true).2 ≠ [] := by
  simp [calculateHealthScore, sampleNormalTurbine]

/-- C8 (amended): the scorer's returned value is deterministic and depends
only on the three inputs (status, power, temperature): any two invocations
agreeing on those three return identical `{score, status, issues}`, totally
and without error cases — but the function itself does perform one side
effect (the health-history insert refuted above). -/
theorem healthScorer_deterministic (t₁ t₂ : WindTurbine) (now₁ now₂ : String)
    (ok₁ ok₂ : Bool) (hstatus : t₁.status = t₂.status) (hpower : t₁.power = t₂.power)
    (htemp : t₁.temperature = t₂.temperature) :
    (calculateHealthScore t₁ now₁ ok₁).1 = (calculateHealthScore t₂ now₂ ok₂).1 := by
  simp [calculateHealthScore, checkPowerEfficiency, checkTemperature, hstatus, hpower, htemp]

/-- Witness for C8's amended theorem at two concretely different turbines
that agree on status, power and temperature. -/
theorem healthScorer_deterministic_witness :
    sampleErrorTurbine.status = sampleErrorTurbineVariant.status
  ∧ sampleErrorTurbine.power = sampleErrorTurbineVariant.power
  ∧ sampleErrorTurbine.temperature = sampleErrorTurbineVariant.temperature
  ∧ (calculateHealthScore sampleErrorTurbine "t1" true).1 =
      (calculateHealthScore sampleErrorTurbineVariant "t2" false).1 :=
  ⟨rfl, rfl, rfl,
    healthScorer_deterministic sampleErrorTurbine sampleErrorTurbineVariant
      "t1" "t2" true false rfl rfl rfl⟩

/-! ### C10 — the two implementations of the scorer agree -/

set_option maxHeartbeats 2000000 in
/-- C10: the async `calculateHealthScore` of `side-panel/utils.ts` and the
local synchronous one defined inside `SidePanel.tsx` compute identical
`{score, status, issues}` for every turbine input. -/
theorem healthScorer_implementations_agree (t : WindTurbine) (now : String) (ok : Bool) :
    (calculateHealthScore t now ok).1 = calculateHealthScoreLocal t := by
  obtain ⟨tid, tname, tpos, tstatus, tpower, tws, ttemp, thum, tevents⟩ := t
  cases tstatus <;>
    simp [calculateHealthScore, calculateHealthScoreLocal,
      checkPowerEfficiency, checkTemperature] <;>
    split_ifs <;>
    simp_all

/-! ### C2 — the maintenance-alert trigger rule -/

/-- A pending health-score alert recording score 55, as in the claim's
"existing non-completed health_score alert recording score 55". -/
def sampleAlert55 : MaintenanceAlert :=
  { id := 1, turbine_id := "HL30-001", alert_type := .health_score, status := .pending,
    description := "Low health score detected: 55", health_score := some 55,
    assigned_to := none, created_at := "2024-01-01T00:00:00Z" }

/-- C2: `createHealthAlert` creates a new alert iff the score is below 60
and no existing alert for the turbine has `alert_type = health_score`,
`status ≠ completed` and the same `health_score`; the created alert has
`alert_type = health_score`, `status = pending`,
`description = "Low health score detected: {score}"` and
`health_score = score`.  In particular, against an existing pending
health-score alert recording 55, another evaluation scoring 55 creates no
alert while one scoring 40 does. -/
theorem maintenanceAlert_trigger_rule (alerts : List MaintenanceAlert)
    (turbineId : String) (score : ℤ) (now : String) :
    ((createHealthAlert alerts turbineId score now).isSome ↔
      (score < 60 ∧ ¬ ∃ a ∈ alerts,
        a.alert_type = .health_score ∧ a.status ≠ .completed ∧ a.health_score = some score))
  ∧ (createHealthAlert alerts turbineId score now = none ∨
     createHealthAlert alerts turbineId score now =
       some { turbine_id := turbineId, alert_type := .health_score, status := .pending,
              description := "Low health score detected: " ++ toString score,
              health_score := some score, created_at := now })
  ∧ createHealthAlert [sampleAlert55] turbineId 55 now = none
  ∧ (createHealthAlert [sampleAlert55] turbineId 40 now).isSome := by
  refine ⟨?_, ?_, ?_, ?_⟩
  · simp [createHealthAlert]
  · simp [createHealthAlert]
    by_cases hex : ∃ a ∈ alerts,
        a.alert_type = AlertType.health_score ∧ ¬a.status = AlertStatus.completed ∧
          a.health_score = some score
    · exact Or.inl fun _ => hex
    · by_cases hs : score < 60
      · refine Or.inr ⟨hs, ?_⟩
        push_neg at hex
        exact hex
      · exact Or.inl fun hlt => absurd hlt hs
  · simp [createHealthAlert, sampleAlert55]
  · simp [createHealthAlert, sampleAlert55]

/-! ### C5 — the dashboard aggregates -/

/-- A left fold accumulating `f` over turbines equals the initial value
plus the sum of the mapped list. -/
theorem foldl_add_map_sum (f : WindTurbine → ℚ) (l : List WindTurbine) :
    ∀ init : ℚ, l.foldl (fun sum t => sum + f t) init = init + (l.map f).sum := by
  induction l with
  | nil => intro init; simp
  | cons hd tl ih => intro init; simp [ih]; ring

/-- The status-count fold adds exactly the list length across the three
buckets, whatever the accumulator. -/
theorem statusCounts_partition_aux (l : List WindTurbine) :
    ∀ acc : StatusCounts,
      ((l.foldl (fun acc turbine =>
        match turbine.status with
        | .normal => { acc with normal := acc.normal + 1 }
        | .warning => { acc with warning := acc.warning + 1 }
        | .error => { acc with error := acc.error + 1 }) acc).normal
      + (l.foldl (fun acc turbine =>
        match turbine.status with
        | .normal => { acc with normal := acc.normal + 1 }
        | .warning => { acc with warning := acc.warning + 1 }
        | .error => { acc with error := acc.error + 1 }) acc).warning
      + (l.foldl (fun acc turbine =>
        match turbine.status with
        | .normal => { acc with normal := acc.normal + 1 }
        | .warning => { acc with warning := acc.warning + 1 }
        | .error => { acc with error := acc.error + 1 }) acc).error)
      = acc.normal + acc.warning + acc.error + l.length := by
  induction l with
  | nil => intro acc; simp
  | cons hd tl ih =>
      intro acc
      cases hst : hd.status <;> simp [hst, ih] <;> omega

/-- C5: the aggregator partitions every turbine exactly once across the
three status counts (normal + warning + error = total), computes total
power as the sum, computes each average as the arithmetic mean with the
divisor guarded by `(count || 1)`, and on the empty list returns
count = 0, totalPower = 0 and all averages = 0 with no division by zero. -/
theorem assetAggregator_contract (turbines : List WindTurbine) :
    ((getTurbineStatusCounts turbines).normal + (getTurbineStatusCounts turbines).warning
        + (getTurbineStatusCounts turbines).error = turbines.length)
  ∧ totalPower turbines = (turbines.map WindTurbine.power).sum
  ∧ averageWindSpeed turbines = (turbines.map WindTurbine.windSpeed).sum /
      (if turbines.length = 0 then 1 else (turbines.length : ℚ))
  ∧ averageTemperature turbines = (turbines.map WindTurbine.temperature).sum /
      (if turbines.length = 0 then 1 else (turbines.length : ℚ))
  ∧ averageHumidity turbines = (turbines.map WindTurbine.humidity).sum /
      (if turbines.length = 0 then 1 else (turbines.length : ℚ))
  ∧ (totalPower [] = 0 ∧ averageWindSpeed [] = 0 ∧ averageTemperature [] = 0
      ∧ averageHumidity [] = 0
      ∧ getTurbineStatusCounts [] = { normal := 0, warning := 0, error := 0 }) := by
  refine ⟨?_, ?_, ?_, ?_, ?_, ?_, ?_, ?_, ?_, ?_⟩
  · simpa using statusCounts_partition_aux turbines { normal := 0, warning := 0, error := 0 }
  · simpa using foldl_add_map_sum WindTurbine.power turbines 0
  · simp [averageWindSpeed, lengthOr1, foldl_add_map_sum WindTurbine.windSpeed turbines 0]
  · simp [averageTemperature, lengthOr1, foldl_add_map_sum WindTurbine.temperature turbines 0]
  · simp [averageHumidity, lengthOr1, foldl_add_map_sum WindTurbine.humidity turbines 0]
  · simp [totalPower]
  · simp [averageWindSpeed, lengthOr1]
  · simp [averageTemperature, lengthOr1]
  · simp [averageHumidity, lengthOr1]
  · rfl

/-! ### C3 — the status controller -/

/-- C3 as stated is false: the event `updateTurbineStatus` prepends for
`newStatus = 'error'` has text `狀態更改為error` — not
`"Status changed to error"` — and carries no priority (the source sets no
priority field at all, so it cannot equal 1). -/
theorem statusController_event_counterexample :
    (((updateTurbineStatus [sampleNormalTurbine] "HL30-002" TStatus.error "2024-01-01" true
        true).1.headD sampleNormalTurbine).events.headD
        { date := "", event := "", priority := none }).event = "狀態更改為error"
  ∧ (((updateTurbineStatus [sampleNormalTurbine] "HL30-002" TStatus.error "2024-01-01" true
        true).1.headD sampleNormalTurbine).events.headD
        { date := "", event := "", priority := none }).priority = none
  ∧ decide ("狀態更改為error" = "Status changed to error") = false
  ∧ decide ((none : Option ℤ) = some 1) = false :=
  ⟨rfl, rfl, rfl, rfl⟩

/-- C3 (amended): a successful `updateTurbineStatus` inserts exactly one
`turbine_events` row with text `狀態更改為{newStatus}` and no priority
value, and in memory each turbine whose id matches gets its status set to
the new status and that same event (again without priority) prepended —
appearing first — in its event list; all other turbines are unchanged. -/
theorem statusController_effect (turbines : List WindTurbine) (id : String)
    (newStatus : TStatus) (now : String) (eventInsertOk : Bool) (i : ℕ) :
    ((updateTurbineStatus turbines id newStatus now true eventInsertOk).2 =
      [{ turbine_id := id, event := "狀態更改為" ++ statusText newStatus,
         priority := none, created_at := now }])
  ∧ ((updateTurbineStatus turbines id newStatus now true eventInsertOk).1[i]? =
      (turbines[i]?).map fun t =>
        if t.id = id then
          { id := t.id, name := t.name, position := t.position, status := newStatus,
            power := t.power, windSpeed := t.windSpeed, temperature := t.temperature,
            humidity := t.humidity,
            events := { date := now, event := "狀態更改為" ++ statusText newStatus,
                        priority := none } :: t.events }
        else t) := by
  constructor
  · simp [updateTurbineStatus]
  · simp only [updateTurbineStatus, Bool.not_true, Bool.false_eq_true, if_false,
      List.getElem?_map]
    cases h : turbines[i]? with
    | none => rfl
    | some t =>
        simp only [Option.map_some']
        by_cases hid : t.id = id
        · simp [hid]
        · simp [hid]

/-! ### C4 — turbine deletion -/

/-- A connection attached to the sample turbines. -/
def sampleConnection : Connection :=
  { id := 7, from_ := "HL30-001", to_ := "HL30-002", status := .normal,
    type := .turbineTurbine }

/-- C4 as stated is false: `deleteTurbine` issues no `health_history` and
no `turbine_events` delete — the external delete sequence for a turbine
with one related connection is exactly
connections → power_history → wind_turbines. -/
theorem deleteTurbine_sequence_counterexample :
    (((deleteTurbineOps [sampleConnection] "HL30-001").map DeleteOp.table).contains
        "health_history" = false)
  ∧ (((deleteTurbineOps [sampleConnection] "HL30-001").map DeleteOp.table).contains
        "turbine_events" = false)
  ∧ ((deleteTurbineOps [sampleConnection] "HL30-001").map DeleteOp.table =
      ["connections", "power_history", "wind_turbines"]) :=
  ⟨rfl, rfl, rfl⟩

/-- C4 (amended): deleting a turbine issues the external deletes in the
sequence connections (one per related connection) → power history → the
turbine itself, with no health-history or events delete; only a failure
of the final turbine delete aborts (leaving in-memory state unchanged),
and after a successful delete the remaining in-memory connection list
contains zero entries with `from` or `to` equal to the deleted id, and
the turbine itself is removed. -/
theorem deleteTurbine_effect (turbines : List WindTurbine)
    (connections : List Connection) (id : String) :
    ((deleteTurbineOps connections id).map DeleteOp.table =
      List.replicate (connections.countP fun c => c.from_ == id || c.to_ == id) "connections"
        ++ ["power_history", "wind_turbines"])
  ∧ (((deleteTurbine turbines connections id true).2.all
        fun c => c.from_ != id && c.to_ != id) = true)
  ∧ ((deleteTurbine turbines connections id true).1 = turbines.filter fun t => t.id != id)
  ∧ (deleteTurbine turbines connections id false = (turbines, connections)) := by
  refine ⟨?_, ?_, rfl, rfl⟩
  · simp only [deleteTurbineOps, List.map_append, List.map_map]
    rw [List.countP_eq_length_filter]
    simp [Function.comp_def, List.map_const']
  · simp [deleteTurbine, List.all_eq_true]

/-! ### C6 — error handling of the core operations -/

/-- C6 as stated is false: inside `updateTurbineStatus` the failure of the
`turbine_events` insert (an external-store call) is only logged — the
in-memory turbine list is still mutated, so the operation does not leave
prior state unchanged on every failing external call. -/
theorem errorHandling_event_insert_counterexample :
    decide ((updateTurbineStatus [sampleNormalTurbine] "HL30-002" TStatus.error "2024-01-01"
      true false).1 = [sampleNormalTurbine]) = false := by
  decide

/-- C6 (amended): for each core operation, failure of its checked primary
external call leaves the in-memory state unchanged — the position update,
the status update's `wind_turbines` update (where additionally no event
insert is issued), the connection-status update, the connection insert,
either insert of turbine creation, and the final turbine delete of
`deleteTurbine`.  The event insert inside `updateTurbineStatus` is the
exception refuted above. -/
theorem errorHandling_primary_failure_no_mutation (turbines : List WindTurbine)
    (connections : List Connection) (id : String) (cid : ℤ) (newStatus : TStatus)
    (pos : ℚ × ℚ) (now : String) (eventInsertOk : Bool) (fromId toId : String)
    (ctype : ConnType) (newTurbine : WindTurbine) (historyInsertOk : Bool) :
    updateTurbinePosition turbines id pos false = turbines
  ∧ updateTurbineStatus turbines id newStatus now false eventInsertOk = (turbines, [])
  ∧ updateConnectionStatus connections cid newStatus false = connections
  ∧ addConnection connections fromId toId ctype none = connections
  ∧ addTurbine turbines newTurbine false historyInsertOk = turbines
  ∧ addTurbine turbines newTurbine true false = turbines
  ∧ deleteTurbine turbines connections id false = (turbines, connections) :=
  ⟨rfl, rfl, rfl, rfl, rfl, rfl, rfl⟩

/-! ### C9 — round trip of the textual point through the store boundary -/

/-- Splitting a comma-free character list leaves a single piece. -/
theorem splitOnCommaAux_no_comma (B : List Char) :
    ∀ acc : List Char, (∀ c ∈ B, c ≠ ',') → splitOnCommaAux B acc = [acc.reverse ++ B] := by
  induction B with
  | nil => intro acc _; simp [splitOnCommaAux]
  | cons b bs ih =>
      intro acc h
      have hb : b ≠ ',' := h b (List.mem_cons_self b bs)
      have hbs : ∀ c ∈ bs, c ≠ ',' := fun c hc => h c (List.mem_cons_of_mem b hc)
      simp [splitOnCommaAux, hb, ih (b :: acc) hbs]

/-- Splitting `A ++ ',' :: B` with comma-free `A` and `B` yields the two
pieces in order. -/
theorem splitOnCommaAux_append (A : List Char) :
    ∀ (B : List Char) (acc : List Char), (∀ c ∈ A, c ≠ ',') → (∀ c ∈ B, c ≠ ',') →
      splitOnCommaAux (A ++ ',' :: B) acc = [acc.reverse ++ A, B] := by
  induction A with
  | nil =>
      intro B acc _ hB
      simp [splitOnCommaAux, splitOnCommaAux_no_comma B [] hB]
  | cons a as ih =>
      intro B acc hA hB
      have ha : a ≠ ',' := hA a (List.mem_cons_self a as)
      have has : ∀ c ∈ as, c ≠ ',' := fun c hc => hA c (List.mem_cons_of_mem a hc)
      simp [splitOnCommaAux, ha, ih B (a :: acc) has hB]

/-- C9: parsing the serialized form of a `(lat, lon)` pair yields the same
pair: for any number↔string codec that round-trips on the two coordinates
and renders without commas (JavaScript guarantees
`Number(String(x)) === x` and comma-free rendering for every finite
number), `parsePointString` applied to the store's
`"(longitude,latitude)"` text produced by `serializePoint` restores
exactly the original `(latitude, longitude)` display pair. -/
theorem pointString_roundtrip (render : ℚ → String) (parse : String → ℚ) (lat lon : ℚ)
    (hlat : parse (render lat) = lat) (hlon : parse (render lon) = lon)
    (hlatNoComma : ((render lat).data.contains ',') = false)
    (hlonNoComma : ((render lon).data.contains ',') = false) :
    parsePointString parse (serializePoint render (lat, lon)) = (lat, lon) := by
  have hlatNC : ∀ c ∈ (render lat).data, c ≠ ',' := by
    intro c hc heq
    subst heq
    simp_all
  have hlonNC : ∀ c ∈ (render lon).data, c ≠ ',' := by
    intro c hc heq
    subst heq
    simp_all
  have hdata : (serializePoint render (lat, lon)).data
      = '(' :: ((render lon).data ++ ',' :: ((render lat).data ++ [')'])) := by
    simp [serializePoint, String.data_append]
  have hdrop : (('(' :: ((render lon).data ++ ',' ::
      ((render lat).data ++ [')']))).drop 1).dropLast
      = (render lon).data ++ ',' :: (render lat).data := by
    have hshape : (render lon).data ++ ',' :: ((render lat).data ++ [')'])
        = ((render lon).data ++ ',' :: (render lat).data) ++ [')'] := by simp
    simp only [List.drop_one, List.tail_cons, hshape, List.dropLast_concat]
  have hsplit : splitOnComma ((render lon).data ++ ',' :: (render lat).data)
      = [(render lon).data, (render lat).data] := by
    simp [splitOnComma, splitOnCommaAux_append (render lon).data (render lat).data []
      hlonNC hlatNC]
  simp only [parsePointString]
  rw [hdata, hdrop, hsplit]
  simp [hlat, hlon]

/-- A concrete number renderer covering the coordinates of the witness. -/
def witnessRender (q : ℚ) : String :=
  if q = 25 then "25" else if q = 121 then "121" else ""

/-- The matching concrete number reader. -/
def witnessParse (s : String) : ℚ :=
  if s = "25" then 25 else if s = "121" then 121 else 0

/-- Witness for C9 at the concrete pair (lat, lon) = (25, 121). -/
theorem pointString_roundtrip_witness :
    witnessParse (witnessRender 25) = 25
  ∧ witnessParse (witnessRender 121) = 121
  ∧ ((witnessRender 25).data.contains ',') = false
  ∧ ((witnessRender 121).data.contains ',') = false
  ∧ parsePointString witnessParse (serializePoint witnessRender (25, 121)) = (25, 121) :=
  ⟨by decide, by decide, by decide, by decide,
    pointString_roundtrip witnessRender witnessParse 25 121
      (by decide) (by decide) (by decide) (by decide)⟩

end WindFarm
